import Mathlib

/-!
Verification of the scouting-flyers backend core: access control,
assignment lifecycle, completion tracking, KML zone import.

Shallow embedding of the Python source under `backend/app`:
pure Lean functions mirror the router functions; the database session is
an explicit `Db` value of lists; PostGIS operators (`ST_Area`, `ST_Union`)
and Python `float()` are external engines, passed in as oracle parameters.
Machine floats are modelled by rationals; HTTP failures by `Except ApiError`.
-/

namespace ScoutingFlyers

/-- HTTP-level failure raised by a router function (`HTTPException` in the
source, plus FastAPI/pydantic request validation failures). -/
inductive ApiError where
  | notFound (detail : String)
  | forbidden (detail : String)
  | badRequest (detail : String)
  | validation (detail : String)
deriving Repr, DecidableEq

/-- Status code carried by each error: 404, 403, 400, and 422 for a
pydantic request-body validation failure. -/
def ApiError.statusCode : ApiError → Nat
  | .notFound _ => 404
  | .forbidden _ => 403
  | .badRequest _ => 400
  | .validation _ => 422

/-- Collaborator role enum from `models/project.py` (`CollaboratorRole`):
`owner`, `organizer`, `project_viewer` (the "viewer" role of the spec). -/
inductive CollaboratorRole where
  | owner
  | organizer
  | project_viewer
deriving Repr, DecidableEq

/-- User row; only the id is relevant to the verified code. -/
structure User where
  id : Nat
deriving Repr, DecidableEq

/-- Project row from `models/project.py`; fields not read by the verified
routers are omitted. -/
structure Project where
  id : Nat
  owner_id : Nat
deriving Repr, DecidableEq

/-- ProjectCollaborator row from `models/project.py`. -/
structure ProjectCollaborator where
  project_id : Nat
  user_id : Nat
  role : CollaboratorRole
deriving Repr, DecidableEq

/-- Zone row from `models/zone.py`; the PostGIS geometry column is an
opaque handle (a `Nat`) interpreted by the area oracle. -/
structure Zone where
  id : Nat
  project_id : Nat
  geometry : Nat
deriving Repr, DecidableEq

/-- ZoneAssignment row from `models/zone.py`. `status` is the string
column with values `assigned`, `in_progress`, `completed`; timestamps are
`Option Nat` (a `datetime` is an abstract instant). -/
structure Assignment where
  id : Nat
  zone_id : Nat
  volunteer_id : Nat
  status : String
  started_at : Option Nat
  completed_at : Option Nat
deriving Repr, DecidableEq

/-- CompletionArea row from `models/completion.py`; the geometry column is
an opaque handle interpreted by the union-area oracle. -/
structure CompletionArea where
  id : Nat
  assignment_id : Nat
  geometry : Nat
deriving Repr, DecidableEq

/-- The database session: each table is a list of rows; `.query(...).first()`
becomes `List.find?` and `.query(...).all()` becomes `List.filter`. -/
structure Db where
  projects : List Project
  collaborators : List ProjectCollaborator
  users : List User
  zones : List Zone
  assignments : List Assignment
  completionAreas : List CompletionArea
deriving Repr

/-- Embedding of `check_project_access` from `routers/projects.py`
(lines 23-82): 404 when the project is missing; 403 when the user is
neither the owner nor a collaborator; with `required_role = owner`, only
the owner passes; with `required_role = organizer`, the owner or a
collaborator whose role is `owner` or `organizer` passes.  A required
role of `project_viewer` falls through both role ifs, like `None`. -/
def check_project_access (db : Db) (project_id : Nat) (user : User)
    (required_role : Option CollaboratorRole) : Except ApiError Project :=
  match db.projects.find? (fun p => p.id = project_id) with
  | none => .error (.notFound "Project not found")
  | some project =>
    let is_owner : Bool := project.owner_id = user.id
    let collaborator := db.collaborators.find?
      (fun c => c.project_id = project_id && c.user_id = user.id)
    let has_access : Bool := is_owner || collaborator.isSome
    if !has_access then
      .error (.forbidden "You do not have access to this project")
    else if required_role = some CollaboratorRole.owner && !is_owner then
      .error (.forbidden "Only the project owner can perform this action")
    else if required_role = some CollaboratorRole.organizer &&
        (!is_owner &&
          !(match collaborator with
            | some c => c.role = CollaboratorRole.owner ||
                c.role = CollaboratorRole.organizer
            | none => false)) then
      .error (.forbidden
        "You need organizer or owner permissions to perform this action")
    else
      .ok project

/-- Embedding of `check_assignment_access` from `routers/assignments.py`
(lines 31-83): 404 when the assignment is missing; with
`require_volunteer`, only the assigned volunteer passes; otherwise the
zone is looked up (404 if missing), the assigned volunteer passes, and
any other user must pass `check_project_access` with no required role. -/
def check_assignment_access (db : Db) (assignment_id : Nat) (user : User)
    (require_volunteer : Bool) : Except ApiError Assignment :=
  match db.assignments.find? (fun a => a.id = assignment_id) with
  | none => .error (.notFound "Assignment not found")
  | some assignment =>
    if require_volunteer then
      if assignment.volunteer_id ≠ user.id then
        .error (.forbidden "You can only access your own assignments")
      else
        .ok assignment
    else
      match db.zones.find? (fun z => z.id = assignment.zone_id) with
      | none => .error (.notFound "Zone not found")
      | some zone =>
        if assignment.volunteer_id = user.id then
          .ok assignment
        else
          match check_project_access db zone.project_id user none with
          | .error e => .error e
          | .ok _ => .ok assignment

/-- Embedding of `check_can_assign_volunteers` from
`routers/assignments.py` (lines 86-96). -/
def check_can_assign_volunteers (db : Db) (project_id : Nat) (user : User) :
    Except ApiError Project :=
  check_project_access db project_id user (some CollaboratorRole.organizer)

/-- Transition dict `allowed_transitions` with `.get(old_status, [])`
from `update_my_assignment_status` (`routers/assignments.py` lines
545-549). -/
def allowed_transitions (s : String) : List String :=
  if s = "assigned" then ["in_progress"]
  else if s = "in_progress" then ["assigned", "completed"]
  else if s = "completed" then ["in_progress"]
  else []

/-- Body of `update_my_assignment_status` after the access check
(`routers/assignments.py` lines 543-574): the transition-table check and
the timestamp side effects. `now` stands for `datetime.utcnow()`. -/
def update_status_core (assignment : Assignment) (newStatus : String)
    (now : Nat) : Except ApiError Assignment :=
  let old_status := assignment.status
  if !((allowed_transitions old_status).contains newStatus) then
    .error (.badRequest ("Invalid status transition from " ++ old_status ++
      " to " ++ newStatus ++ ". Allowed transitions: " ++
      String.intercalate ", " (allowed_transitions old_status)))
  else
    let a := { assignment with status := newStatus }
    let a :=
      if newStatus = "in_progress" then
        let a := if old_status = "completed" then
            { a with completed_at := none } else a
        if a.started_at.isNone then { a with started_at := some now } else a
      else if newStatus = "completed" && a.completed_at.isNone then
        { a with completed_at := some now }
      else if newStatus = "assigned" && old_status = "in_progress" then
        { a with started_at := none }
      else a
    .ok a

/-- Request validation for `VolunteerStatusUpdate.status`
(`schemas/assignment.py` line 24): the pydantic pattern
is the anchored alternation of `in_progress` and `completed`, so exactly
those two strings are admitted; any other body fails validation (422)
before the route handler runs. -/
def volunteerStatusPatternOk (s : String) : Bool :=
  s = "in_progress" || s = "completed"

/-- End-to-end embedding of the `PATCH /my-assignments/.../status` route
(`update_my_assignment_status`, `routers/assignments.py` lines 532-576):
pydantic body validation, then the volunteer-only access check, then the
lifecycle transition. -/
def update_my_assignment_status (db : Db) (assignment_id : Nat)
    (user : User) (statusReq : String) (now : Nat) :
    Except ApiError Assignment :=
  if !volunteerStatusPatternOk statusReq then
    .error (.validation
      "String should match pattern anchored alternation in_progress|completed")
  else
    match check_assignment_access db assignment_id user true with
    | .error e => .error e
    | .ok assignment => update_status_core assignment statusReq now

/-- Embedding of `create_assignment` from `routers/assignments.py`
(lines 143-217): organizer check, zone existence and project membership,
volunteer existence, then the duplicate-active-assignment guard (an
existing assignment for the same zone and volunteer with status other
than `completed` yields HTTP 400); on success a new row with status
`assigned` and empty timestamps is created. -/
def create_assignment (db : Db) (project_id : Nat) (zone_id : Nat)
    (volunteer_id : Nat) (user : User) (newId : Nat) :
    Except ApiError Assignment :=
  match check_can_assign_volunteers db project_id user with
  | .error e => .error e
  | .ok _ =>
    match db.zones.find? (fun z => z.id = zone_id) with
    | none => .error (.notFound "Zone not found")
    | some zone =>
      if zone.project_id ≠ project_id then
        .error (.badRequest "Zone does not belong to this project")
      else
        match db.users.find? (fun u => u.id = volunteer_id) with
        | none => .error (.notFound "Volunteer not found")
        | some _ =>
          match db.assignments.find? (fun a =>
              a.zone_id = zone_id && a.volunteer_id = volunteer_id &&
              a.status ≠ "completed") with
          | some _ =>
            .error (.badRequest
              "This volunteer is already assigned to this zone")
          | none =>
            .ok { id := newId, zone_id := zone_id,
                  volunteer_id := volunteer_id, status := "assigned",
                  started_at := none, completed_at := none }

/-- Round-half-to-even to an integer, the rounding mode of Python
`round`. -/
def rndHalfEven (q : ℚ) : ℤ :=
  if q - ⌊q⌋ < 1/2 then ⌊q⌋
  else if 1/2 < q - ⌊q⌋ then ⌊q⌋ + 1
  else if ⌊q⌋ % 2 = 0 then ⌊q⌋ else ⌊q⌋ + 1

/-- Python `round(x, 2)` modelled over the rationals. -/
def pyRound2 (q : ℚ) : ℚ := (rndHalfEven (q * 100) : ℚ) / 100

/-- Response of the progress route (the dict literal in
`get_completion_progress`). -/
structure ProgressResponse where
  assignment_id : Nat
  total_area_sqm : ℚ
  completed_area_sqm : ℚ
  progress_percentage : ℚ
  completion_count : Nat
deriving Repr, DecidableEq

/-- Embedding of `get_completion_progress` from `routers/completions.py`
(lines 153-231). `stArea` is the PostGIS `ST_Area` operator on a zone
geometry handle; `stUnionArea` is `ST_Area(ST_Union(...))` over the
geometry handles of the completion rows.  Access requires the caller to
be the assigned volunteer; a zero total area returns all-zero fields
before any completion rows are read; an empty completion set returns
zero coverage; otherwise the percentage is
`min 100 (completed / total * 100)` rounded to two decimals. -/
def get_completion_progress (stArea : Nat → ℚ) (stUnionArea : List Nat → ℚ)
    (db : Db) (assignment_id : Nat) (user : User) :
    Except ApiError ProgressResponse :=
  match db.assignments.find? (fun a => a.id = assignment_id) with
  | none => .error (.notFound "Assignment not found")
  | some assignment =>
    if assignment.volunteer_id ≠ user.id then
      .error (.forbidden "You can only view progress for your own assignments")
    else
      match db.zones.find? (fun z => z.id = assignment.zone_id) with
      | none => .error (.notFound "Zone not found")
      | some zone =>
        let total_area := stArea zone.geometry
        if total_area = 0 then
          .ok { assignment_id := assignment_id, total_area_sqm := 0,
                completed_area_sqm := 0, progress_percentage := 0,
                completion_count := 0 }
        else
          let areas := db.completionAreas.filter
            (fun c => c.assignment_id = assignment_id)
          if areas.isEmpty then
            .ok { assignment_id := assignment_id,
                  total_area_sqm := total_area, completed_area_sqm := 0,
                  progress_percentage := 0, completion_count := 0 }
          else
            let completed_area :=
              stUnionArea (areas.map (fun c => c.geometry))
            let progress_percentage :=
              if total_area > 0 then
                min 100 ((completed_area / total_area) * 100)
              else 0
            .ok { assignment_id := assignment_id,
                  total_area_sqm := total_area,
                  completed_area_sqm := completed_area,
                  progress_percentage := pyRound2 progress_percentage,
                  completion_count := areas.length }

/-- Embedding of the access gate and row query of `get_completion_areas`
from `routers/completions.py` (lines 79-119): 404 when the assignment is
missing, 403 for every caller other than the assigned volunteer
(project role is never consulted), else the assignment's completion
rows. -/
def get_completion_areas (db : Db) (assignment_id : Nat) (user : User) :
    Except ApiError (List CompletionArea) :=
  match db.assignments.find? (fun a => a.id = assignment_id) with
  | none => .error (.notFound "Assignment not found")
  | some assignment =>
    if assignment.volunteer_id ≠ user.id then
      .error (.forbidden
        "You can only view completion for your own assignments")
    else
      .ok (db.completionAreas.filter (fun c => c.assignment_id = assignment_id))

/-- A `Placemark` element of a parsed KML document, as read by
`utils/kml_parser.py`.  Each field holds the text of the corresponding
child element: for `name`, the outer `Option` is element presence and
the inner is text presence (`ElementTree` gives `None` for an empty
element's text); for the others the two absence cases behave alike and
are merged into one `Option`.  `polygon` is the text of
`Polygon/outerBoundaryIs/LinearRing/coordinates`: `none` when there is
no `Polygon` element, `some none` when the coordinates element or its
text is missing, and `some (some tokens)` holds the whitespace-split
tokens of the text (Python `str.split()`). -/
structure KmlPlacemark where
  name : Option (Option String)
  description : Option String
  styleColor : Option String
  styleUrl : Option String
  polygon : Option (Option (List String))
deriving Repr, DecidableEq

/-- GeoJSON-style polygon built by `_extract_polygon`: the outer ring as
a list of (lon, lat) pairs. -/
structure GeoPolygon where
  outer : List (ℚ × ℚ)
deriving Repr, DecidableEq

/-- The `kml_metadata` dict attached to each candidate by
`_parse_placemark`. -/
structure KmlMetadata where
  source : String
  original_description : Option String
deriving Repr, DecidableEq

/-- A zone candidate dict produced by `_parse_placemark`. -/
structure ZoneData where
  name : String
  description : Option String
  geometry : GeoPolygon
  color : Option String
  kml_metadata : KmlMetadata
deriving Repr, DecidableEq

/-- Python `str.lower()` restricted to the ASCII casing the zone names
use: character-wise lowering. -/
def pyLower (s : String) : String := String.mk (s.toList.map Char.toLower)

/-- Python `str.strip()` (with no argument): drop leading and trailing
whitespace. -/
def pyStrip (s : String) : String :=
  String.mk
    (((s.toList.dropWhile Char.isWhitespace).reverse.dropWhile
      Char.isWhitespace).reverse)

/-- Helper for `pySplitChar`: walk the characters, cutting at each
separator (Python `str.split(sep)` keeps empty segments). -/
def splitCharAux (sep : Char) : List Char → List Char → List String
  | [], acc => [String.mk acc.reverse]
  | c :: cs, acc =>
    if c = sep then String.mk acc.reverse :: splitCharAux sep cs []
    else splitCharAux sep cs (c :: acc)

/-- Python `str.split(sep)` for a one-character separator. -/
def pySplitChar (sep : Char) (s : String) : List String :=
  splitCharAux sep s.toList []

/-- Embedding of `_parse_coordinates` (`utils/kml_parser.py` lines
132-159).  `parseFloat` is the oracle for Python `float()` (`none` when
it raises `ValueError`).  Each whitespace token is stripped, split on
commas; tokens with fewer than two comma-parts or an unparsable
longitude or latitude are skipped. -/
def parse_coordinates (parseFloat : String → Option ℚ) :
    List String → List (ℚ × ℚ)
  | [] => []
  | pair :: rest =>
    let p := pyStrip pair
    if p = "" then parse_coordinates parseFloat rest
    else
      match pySplitChar ',' p with
      | p0 :: p1 :: _ =>
        match parseFloat p0, parseFloat p1 with
        | some lon, some lat => (lon, lat) :: parse_coordinates parseFloat rest
        | _, _ => parse_coordinates parseFloat rest
      | _ => parse_coordinates parseFloat rest

/-- Embedding of `_extract_polygon` (`utils/kml_parser.py` lines
100-129): fails when there is no polygon or no coordinates text, or
when fewer than 3 coordinate pairs parse; otherwise the ring is closed
by appending the first vertex whenever the last vertex differs from it. -/
def extract_polygon (parseFloat : String → Option ℚ) (pm : KmlPlacemark) :
    Option GeoPolygon :=
  match pm.polygon with
  | none => none
  | some none => none
  | some (some tokens) =>
    let coordinates := parse_coordinates parseFloat tokens
    if coordinates.length < 3 then none
    else
      match coordinates.head? with
      | none => none
      | some c0 =>
        if coordinates.getLast? ≠ some c0 then
          some { outer := coordinates ++ [c0] }
        else
          some { outer := coordinates }

/-- Embedding of `_extract_color` (`utils/kml_parser.py` lines 162-188):
an inline `Style/PolyStyle/color` with 8-hex-digit `aabbggrr` text is
converted to `#rrggbb`; a missing or empty inline color falls back to
the `styleUrl` branch, which always yields `none` (references are not
resolved). -/
def extract_color (pm : KmlPlacemark) : Option String :=
  match pm.styleColor with
  | some t =>
    if t = "" then none
    else
      let kml_color := pyStrip t
      if kml_color.length = 8 then
        some ("#" ++ kml_color.drop 6 ++ (kml_color.drop 4).take 2 ++
          (kml_color.drop 2).take 2)
      else none
  | none => none

/-- The name a placemark contributes after Python truthiness checks and
stripping: `none` when the element or its text is absent, or the
stripped text is empty. -/
def placemark_effective_name (pm : KmlPlacemark) : Option String :=
  match pm.name with
  | some (some t) => if pyStrip t = "" then none else some (pyStrip t)
  | _ => none

/-- Embedding of `_parse_placemark` (`utils/kml_parser.py` lines 62-97):
`none` when the stripped name is missing or empty, or when no polygon
can be extracted; otherwise the candidate dict. -/
def parse_placemark (parseFloat : String → Option ℚ) (pm : KmlPlacemark) :
    Option ZoneData :=
  match placemark_effective_name pm with
  | none => none
  | some n =>
    let description : Option String :=
      match pm.description with
      | some t => if t = "" then none else some (pyStrip t)
      | none => none
    let color := extract_color pm
    match extract_polygon parseFloat pm with
    | none => none
    | some geometry =>
      some { name := n, description := description, geometry := geometry,
             color := color,
             kml_metadata := { source := "kml_import",
                               original_description := description } }

/-- The name used in a per-placemark error message of `parse_kml`
(`name.text if name is not None else "Unknown"`, with Python rendering
a `None` text as the string `None`). -/
def placemark_display_name (pm : KmlPlacemark) : String :=
  match pm.name with
  | none => "Unknown"
  | some none => "None"
  | some (some t) => t

/-- One iteration of the placemark loop in `parse_kml`: a placemark
that parses is appended to the zones, one that does not appends an
error naming it. -/
def parse_kml_step (parseFloat : String → Option ℚ)
    (acc : List ZoneData × List String) (pm : KmlPlacemark) :
    List ZoneData × List String :=
  match parse_placemark parseFloat pm with
  | some zd => (acc.1 ++ [zd], acc.2)
  | none => (acc.1, acc.2 ++
      ["Failed to parse placemark: " ++ placemark_display_name pm])

/-- Embedding of `parse_kml` (`utils/kml_parser.py` lines 7-59).  The
document is `none` when the markup is not well-formed (`ET.ParseError`),
else the list of its `Placemark` elements.  An empty placemark list
yields one error; each placemark that fails to parse appends an error
naming it; a run with no zones and no errors gets the fallback error. -/
def parse_kml (parseFloat : String → Option ℚ)
    (doc : Option (List KmlPlacemark)) : List ZoneData × List String :=
  match doc with
  | none => ([], ["Invalid KML format"])
  | some placemarks =>
    if placemarks.isEmpty then ([], ["No placemarks found in KML file"])
    else
      let out := placemarks.foldl (parse_kml_step parseFloat) ([], [])
      if out.1.isEmpty && out.2.isEmpty then
        (out.1, out.2 ++ ["No valid zones found in KML file"])
      else out

/-- Embedding of `convert_geojson_to_wkt` (`utils/kml_parser.py` lines
191-207) restricted to the `Polygon` case; a `GeoPolygon` value is by
construction of type `Polygon`, so the `ValueError` branch for other
geometry types is unreachable. -/
def convert_geojson_to_wkt (g : GeoPolygon) : String :=
  "POLYGON((" ++ String.intercalate ","
    (g.outer.map (fun p => toString p.1 ++ " " ++ toString p.2)) ++ "))"

/-- Embedding of `_check_project_access` from `routers/zones.py` (lines
27-50): membership only, the collaborator role is never read. -/
def zones_check_project_access (db : Db) (project_id : Nat) (user : User) :
    Except ApiError Project :=
  match db.projects.find? (fun p => p.id = project_id) with
  | none => .error (.notFound "Project not found")
  | some project =>
    let is_owner : Bool := project.owner_id = user.id
    let is_collaborator := db.collaborators.any
      (fun c => c.project_id = project_id && c.user_id = user.id)
    if !(is_owner || is_collaborator) then
      .error (.forbidden "You do not have access to this project")
    else
      .ok project

/-- Embedding of `delete_all_zones` from `routers/zones.py` (lines
215-230): membership check, then the count of deleted rows. -/
def delete_all_zones (db : Db) (project_id : Nat) (user : User) :
    Except ApiError Nat :=
  match zones_check_project_access db project_id user with
  | .error e => .error e
  | .ok _ => .ok (db.zones.filter (fun z => z.project_id = project_id)).length

/-- Embedding of `delete_zone` from `routers/zones.py` (lines 233-255):
404 when the zone is missing, then the membership check on the owning
project. -/
def delete_zone (db : Db) (zone_id : Nat) (user : User) :
    Except ApiError String :=
  match db.zones.find? (fun z => z.id = zone_id) with
  | none => .error (.notFound "Zone not found")
  | some zone =>
    match zones_check_project_access db zone.project_id user with
    | .error e => .error e
    | .ok _ => .ok "Zone deleted successfully"

/-- Response shape of `import_kml` (`KMLImportResponse`). -/
structure ImportResult where
  zones_created : Nat
  zones : List ZoneData
  errors : List String
deriving Repr, DecidableEq

/-- Persistence phase of `import_kml` (`routers/zones.py` lines
125-212), after the access check, as a function of the parse result and
the skip list.  The batch fails early (400) when nothing parsed and
errors exist; candidates whose lowercased name is on the lowercased
skip list are filtered out; zone-row construction itself cannot fail in
this model (WKT conversion succeeds on every `Polygon` candidate and
storage faults are out of scope), so the loop appends no further
errors; with no created zones the batch fails (400, rollback) exactly
when errors exist, and is otherwise a successful no-op. -/
def import_kml_core (zones_data : List ZoneData) (errors : List String)
    (zones_to_skip : List String) : Except ApiError ImportResult :=
  if zones_data.isEmpty && !errors.isEmpty then
    .error (.badRequest ("Failed to parse KML: " ++
      String.intercalate "; " errors))
  else
    let zones_to_skip_lower := zones_to_skip.map (fun s => pyLower s)
    let created_zones := zones_data.filter
      (fun zd => !(zones_to_skip_lower.contains (pyLower zd.name)))
    if !created_zones.isEmpty then
      .ok { zones_created := created_zones.length, zones := created_zones,
            errors := errors }
    else if !errors.isEmpty then
      .error (.badRequest ("Failed to import zones. Errors: " ++
        String.intercalate "; " errors))
    else
      .ok { zones_created := 0, zones := [], errors := errors }

/-- Embedding of the `POST /zones/import-kml` route (`routers/zones.py`
lines 113-212): the membership-only access check, the KML parse, then
the persistence phase. -/
def import_kml (parseFloat : String → Option ℚ) (db : Db)
    (project_id : Nat) (user : User) (doc : Option (List KmlPlacemark))
    (zones_to_skip : List String) : Except ApiError ImportResult :=
  match zones_check_project_access db project_id user with
  | .error e => .error e
  | .ok _ =>
    let res := parse_kml parseFloat doc
    import_kml_core res.1 res.2 zones_to_skip

/-! ### Claim theorems -/

/-- C3: the project access check orders roles strictly: with required
role `owner`, exactly the user equal to the project owner passes and
every other user (whatever collaborator row they hold, including an
organizer) fails with Forbidden; with required role `organizer`, the
owner passes, a collaborator found with role `organizer` passes, and one
found with role `project_viewer` fails with Forbidden; a user who is
neither the owner nor any collaborator fails every check with
Forbidden; a nonexistent project fails with NotFound. -/
theorem C3_access_control_role_ordering (db : Db) (pid : Nat) (user : User) :
    (db.projects.find? (fun p => p.id = pid) = none →
      ∀ r, check_project_access db pid user r =
        .error (.notFound "Project not found")) ∧
    (∀ project, db.projects.find? (fun p => p.id = pid) = some project →
      ((project.owner_id = user.id →
          check_project_access db pid user (some CollaboratorRole.owner) =
            .ok project) ∧
       (project.owner_id ≠ user.id →
          ∃ d, check_project_access db pid user (some CollaboratorRole.owner) =
            .error (.forbidden d)) ∧
       (project.owner_id = user.id →
          check_project_access db pid user (some CollaboratorRole.organizer) =
            .ok project) ∧
       (∀ c, db.collaborators.find?
              (fun c => c.project_id = pid && c.user_id = user.id) = some c →
          project.owner_id ≠ user.id →
          ((c.role = CollaboratorRole.organizer →
              check_project_access db pid user
                (some CollaboratorRole.organizer) = .ok project) ∧
           (c.role = CollaboratorRole.project_viewer →
              ∃ d, check_project_access db pid user
                (some CollaboratorRole.organizer) =
                  .error (.forbidden d)))) ∧
       (project.owner_id ≠ user.id →
          db.collaborators.find?
            (fun c => c.project_id = pid && c.user_id = user.id) = none →
          ∀ r, ∃ d, check_project_access db pid user r =
            .error (.forbidden d)))) := by
  constructor
  · intro hnone r
    simp [check_project_access, hnone]
  · intro project hproj
    refine ⟨?_, ?_, ?_, ?_, ?_⟩
    · intro howner
      simp [check_project_access, hproj, howner]
    · intro hnot
      cases hc : db.collaborators.find?
          (fun c => c.project_id = pid && c.user_id = user.id) with
      | none =>
        exact ⟨"You do not have access to this project",
          by simp [check_project_access, hproj, hc, hnot]⟩
      | some c =>
        exact ⟨"Only the project owner can perform this action",
          by simp [check_project_access, hproj, hc, hnot]⟩
    · intro howner
      simp [check_project_access, hproj, howner]
    · intro c hc hnot
      constructor
      · intro hrole
        simp [check_project_access, hproj, hc, hnot, hrole]
      · intro hrole
        exact ⟨"You need organizer or owner permissions to perform this action",
          by simp [check_project_access, hproj, hc, hnot, hrole]⟩
    · intro hnot hc r
      exact ⟨"You do not have access to this project",
        by simp [check_project_access, hproj, hc, hnot]⟩

/-- Concrete database for access-control witnesses: project 10 owned by
user 1, with user 2 an organizer collaborator and user 3 a viewer
collaborator. -/
def dbAccess : Db :=
  { projects := [{ id := 10, owner_id := 1 }]
    collaborators :=
      [{ project_id := 10, user_id := 2, role := CollaboratorRole.organizer },
       { project_id := 10, user_id := 3,
         role := CollaboratorRole.project_viewer }]
    users := []
    zones := []
    assignments := []
    completionAreas := [] }

/-- C3 witness: on `dbAccess`, the organizer collaborator (user 2)
passes the organizer-level check. -/
theorem C3_access_control_role_ordering_witness :
    check_project_access dbAccess 10 { id := 2 }
      (some CollaboratorRole.organizer) = .ok { id := 10, owner_id := 1 } :=
  ((((C3_access_control_role_ordering dbAccess 10 { id := 2 }).2
      { id := 10, owner_id := 1 } (by decide)).2.2.2.1)
    { project_id := 10, user_id := 2, role := CollaboratorRole.organizer }
    (by decide) (by decide)).1 (by decide)

/-- Concrete database for lifecycle checks: project 10 owned by user 1,
zone 20 in it, assignment 30 of zone 20 to volunteer 2, currently
`in_progress` with `started_at` set. -/
def dbLifecycle : Db :=
  { projects := [{ id := 10, owner_id := 1 }]
    collaborators := []
    users := [{ id := 1 }, { id := 2 }]
    zones := [{ id := 20, project_id := 10, geometry := 0 }]
    assignments := [{ id := 30, zone_id := 20, volunteer_id := 2,
                      status := "in_progress", started_at := some 5,
                      completed_at := none }]
    completionAreas := [] }

/-- C1: the claim says the lifecycle table is enforced exactly and in
particular that `in_progress -> assigned` succeeds when requested by the
assigned volunteer.  The route handler's own table
(`allowed_transitions`) does allow it — `update_status_core` accepts the
transition and clears `started_at` — but the request schema
(`VolunteerStatusUpdate`, pattern `in_progress|completed`) rejects the
body `status = "assigned"` with a 422 validation error before the
handler runs, so the endpoint refuses a transition its own table
declares legal: the code contradicts itself and the claim fails on the
endpoint. -/
theorem C1_transition_assigned_rejected_by_schema :
    volunteerStatusPatternOk "assigned" = false ∧
    (update_my_assignment_status dbLifecycle 30 { id := 2 } "assigned" 7
      = .error (.validation
        "String should match pattern anchored alternation in_progress|completed")) ∧
    ((update_my_assignment_status dbLifecycle 30 { id := 2 } "assigned" 7).isOk
      = false) ∧
    (update_status_core
        { id := 30, zone_id := 20, volunteer_id := 2,
          status := "in_progress", started_at := some 5,
          completed_at := none } "assigned" 7
      = .ok { id := 30, zone_id := 20, volunteer_id := 2,
              status := "assigned", started_at := none,
              completed_at := none }) := by
  exact ⟨rfl, rfl, rfl, rfl⟩

/-- C5: timestamp side effects of the volunteer lifecycle transition.
From `completed` to `in_progress` the completed timestamp is cleared and
the started timestamp is set to `now` only when absent, otherwise left
unchanged; entering `completed` (from `in_progress`) sets the completed
timestamp only when absent; from `in_progress` to `assigned` the started
timestamp is cleared. -/
theorem C5_transition_timestamp_side_effects (a : Assignment) (now : Nat) :
    (a.status = "completed" →
      update_status_core a "in_progress" now =
        .ok { a with
              status := "in_progress"
              completed_at := none
              started_at :=
                (if a.started_at.isNone then some now else a.started_at) }) ∧
    (a.status = "in_progress" →
      update_status_core a "completed" now =
        .ok { a with
              status := "completed"
              completed_at :=
                (if a.completed_at.isNone then some now
                 else a.completed_at) }) ∧
    (a.status = "in_progress" →
      update_status_core a "assigned" now =
        .ok { a with
              status := "assigned"
              started_at := none }) := by
  refine ⟨?_, ?_, ?_⟩
  · intro h
    simp only [update_status_core, h, allowed_transitions]
    cases hs : a.started_at <;> simp [hs]
  · intro h
    simp only [update_status_core, h, allowed_transitions]
    cases hc : a.completed_at <;> simp [hc]
  · intro h
    simp only [update_status_core, h, allowed_transitions]
    simp

/-- C5 witness: the reactivation scenario of the claim evaluated on a
concrete completed assignment with both timestamps set: the completed
timestamp is cleared and the started timestamp keeps its old value. -/
theorem C5_transition_timestamp_side_effects_witness :
    update_status_core
        { id := 30, zone_id := 20, volunteer_id := 2, status := "completed",
          started_at := some 5, completed_at := some 6 } "in_progress" 9
      = .ok { id := 30, zone_id := 20, volunteer_id := 2,
              status := "in_progress", started_at := some 5,
              completed_at := none } := by
  have h := And.left (C5_transition_timestamp_side_effects
    { id := 30, zone_id := 20, volunteer_id := 2, status := "completed",
      started_at := some 5, completed_at := some 6 } 9) rfl
  simpa using h

/-- C4 counterexample: on `dbLifecycle`, user 1 owns the project of
assignment 30 and so passes the project-level can-view check, yet both
the completion-areas listing and the progress query refuse them with
Forbidden — read access to these two operations is not granted by the
can-view check, contradicting the claim. -/
theorem C4_counterexample_owner_forbidden_on_completions :
    check_project_access dbLifecycle 10 { id := 1 } none =
      .ok { id := 10, owner_id := 1 } ∧
    get_completion_areas dbLifecycle 30 { id := 1 } =
      .error (.forbidden
        "You can only view completion for your own assignments") ∧
    get_completion_progress (fun _ => 1) (fun _ => 1) dbLifecycle 30
        { id := 1 } =
      .error (.forbidden
        "You can only view progress for your own assignments") :=
  ⟨rfl, rfl, rfl⟩

/-- C4 (amended): the assigned volunteer always passes
`check_assignment_access`; any other user passes it exactly when they
pass the project-level can-view check on the zone's owning project; but
the completion-areas listing and the completion-progress query are
volunteer-only: every other caller — project members included — gets
Forbidden there. -/
theorem C4_assignment_access_amended (db : Db) (aid : Nat) (u : User)
    (a : Assignment) (z : Zone)
    (ha : db.assignments.find? (fun x => x.id = aid) = some a)
    (hz : db.zones.find? (fun x => x.id = a.zone_id) = some z) :
    (a.volunteer_id = u.id →
      ∀ rv, check_assignment_access db aid u rv = .ok a) ∧
    (a.volunteer_id ≠ u.id →
      (∀ p, check_project_access db z.project_id u none = .ok p →
        check_assignment_access db aid u false = .ok a) ∧
      (∀ e, check_project_access db z.project_id u none = .error e →
        check_assignment_access db aid u false = .error e)) ∧
    (a.volunteer_id ≠ u.id →
      get_completion_areas db aid u =
        .error (.forbidden
          "You can only view completion for your own assignments") ∧
      ∀ stA stU, get_completion_progress stA stU db aid u =
        .error (.forbidden
          "You can only view progress for your own assignments")) := by
  refine ⟨?_, ?_, ?_⟩
  · intro hv rv
    cases rv <;> simp [check_assignment_access, ha, hz, hv]
  · intro hv
    constructor
    · intro p hp
      simp [check_assignment_access, ha, hz, hv, hp]
    · intro e he
      simp [check_assignment_access, ha, hz, hv, he]
  · intro hv
    constructor
    · simp [get_completion_areas, ha, hv]
    · intro stA stU
      simp [get_completion_progress, ha, hv]

/-- C4 amended witness: on `dbLifecycle` the assigned volunteer (user 2)
passes `check_assignment_access` without any project role. -/
theorem C4_assignment_access_amended_witness :
    check_assignment_access dbLifecycle 30 { id := 2 } false =
      .ok { id := 30, zone_id := 20, volunteer_id := 2,
            status := "in_progress", started_at := some 5,
            completed_at := none } :=
  (C4_assignment_access_amended dbLifecycle 30 { id := 2 }
    { id := 30, zone_id := 20, volunteer_id := 2, status := "in_progress",
      started_at := some 5, completed_at := none }
    { id := 20, project_id := 10, geometry := 0 } rfl rfl).1 rfl false

/-- Round-half-even never rounds past an integer upper bound. -/
theorem rndHalfEven_le (q : ℚ) (n : ℤ) (h : q ≤ n) :
    rndHalfEven q ≤ n := by
  have hf : ⌊q⌋ ≤ n := by
    have h2 := Int.floor_le_floor h
    simpa using h2
  have hstep : ¬(q - ⌊q⌋ < 1/2) → ⌊q⌋ + 1 ≤ n := by
    intro h1
    have h2 : (1/2 : ℚ) ≤ q - ⌊q⌋ := not_lt.mp h1
    have h3 : (⌊q⌋ : ℚ) < (n : ℚ) := by linarith
    have h4 : ⌊q⌋ < n := by exact_mod_cast h3
    omega
  unfold rndHalfEven
  split_ifs with h1 h2 h3
  · exact hf
  · exact hstep h1
  · exact hf
  · exact hstep h1

/-- Python `round(x, 2)` never exceeds an integer bound the input
respects. -/
theorem pyRound2_le (q : ℚ) (h : q ≤ 100) : pyRound2 q ≤ 100 := by
  unfold pyRound2
  have h1 : rndHalfEven (q * 100) ≤ (10000 : ℤ) :=
    rndHalfEven_le _ _ (by push_cast; linarith)
  rw [div_le_iff₀ (by norm_num : (0:ℚ) < 100)]
  have h2 : ((rndHalfEven (q * 100) : ℤ) : ℚ) ≤ ((10000 : ℤ) : ℚ) := by
    exact_mod_cast h1
  push_cast at h2 ⊢
  linarith

/-- C2: for any successful progress query, a zero total area yields
percentage 0 and covered area 0; and whenever at least one completion
mark exists the percentage is `min 100 (covered / total * 100)` rounded
to two decimals, hence never above 100 even when the union of marks is
larger than the zone. -/
theorem C2_progress_percentage_clamped (stA : Nat → ℚ)
    (stU : List Nat → ℚ) (db : Db) (aid : Nat) (u : User)
    (r : ProgressResponse) (hA : ∀ g, 0 ≤ stA g)
    (h : get_completion_progress stA stU db aid u = .ok r) :
    (r.total_area_sqm = 0 →
      r.progress_percentage = 0 ∧ r.completed_area_sqm = 0) ∧
    (0 < r.completion_count →
      r.progress_percentage =
        pyRound2 (min 100 (r.completed_area_sqm / r.total_area_sqm * 100)) ∧
      r.progress_percentage ≤ 100) := by
  unfold get_completion_progress at h
  cases hfind : db.assignments.find? (fun a => a.id = aid) with
  | none => rw [hfind] at h; exact absurd h (by simp)
  | some assignment =>
    rw [hfind] at h
    dsimp only at h
    by_cases hv : assignment.volunteer_id = u.id
    · rw [if_neg (by simpa using hv)] at h
      cases hzone : db.zones.find? (fun z => z.id = assignment.zone_id) with
      | none => rw [hzone] at h; exact absurd h (by simp)
      | some zone =>
        rw [hzone] at h
        dsimp only at h
        by_cases h0 : stA zone.geometry = 0
        · rw [if_pos h0] at h
          injection h with h
          subst h
          refine ⟨fun _ => ⟨rfl, rfl⟩, fun hc => absurd hc (by simp)⟩
        · rw [if_neg h0] at h
          by_cases hemp :
              (db.completionAreas.filter
                (fun c => c.assignment_id = aid)).isEmpty
          · rw [if_pos hemp] at h
            injection h with h
            subst h
            exact ⟨fun ht => absurd ht h0, fun hc => absurd hc (by simp)⟩
          · rw [if_neg hemp] at h
            have hpos : 0 < stA zone.geometry :=
              lt_of_le_of_ne (hA zone.geometry) (Ne.symm h0)
            rw [if_pos hpos] at h
            injection h with h
            subst h
            refine ⟨fun ht => absurd ht h0, fun _ => ⟨rfl, ?_⟩⟩
            exact pyRound2_le _ (min_le_left _ _)
    · rw [if_pos (by simpa using hv)] at h
      exact absurd h (by simp)

/-- Concrete database for the progress witness: like `dbLifecycle` with
one completion area on assignment 30. -/
def dbProgress : Db :=
  { dbLifecycle with
    completionAreas := [{ id := 40, assignment_id := 30, geometry := 7 }] }

/-- C2 witness: a zone of area 2 with a single mark whose union area is
3 (overshooting the zone): the computed percentage is exactly 100. -/
theorem C2_progress_percentage_clamped_witness :
    get_completion_progress (fun _ => 2) (fun _ => 3) dbProgress 30
        { id := 2 } =
      .ok { assignment_id := 30, total_area_sqm := 2,
            completed_area_sqm := 3, progress_percentage := 100,
            completion_count := 1 } ∧
    (100 : ℚ) ≤ 100 ∧ (0:ℚ) ≤ (2:ℚ) := by
  have hok : get_completion_progress (fun _ => 2) (fun _ => 3) dbProgress 30
      { id := 2 } =
      .ok { assignment_id := 30, total_area_sqm := 2, completed_area_sqm := 3,
            progress_percentage := 100, completion_count := 1 } := by
    norm_num [get_completion_progress, dbProgress, dbLifecycle, pyRound2,
      rndHalfEven]
  refine ⟨hok, ?_, by norm_num⟩
  exact ((C2_progress_percentage_clamped (fun _ => 2) (fun _ => 3)
      dbProgress 30 { id := 2 }
      { assignment_id := 30, total_area_sqm := 2, completed_area_sqm := 3,
        progress_percentage := 100, completion_count := 1 }
      (fun _ => by norm_num) hok).2 (by norm_num)).2

/-- C6: with the organizer check passed, the zone present and owned by
the project, and the volunteer existing, creating an assignment fails
with the DuplicateAssignment error (HTTP 400) exactly when some existing
assignment for the same (zone, volunteer) pair has a status other than
`completed`; when every existing assignment for the pair is `completed`,
a fresh row with status `assigned` is created. -/
theorem C6_duplicate_assignment_guard (db : Db) (pid zid vid : Nat)
    (u : User) (newId : Nat) (p : Project) (z : Zone)
    (hacc : check_can_assign_volunteers db pid u = .ok p)
    (hz : db.zones.find? (fun x => x.id = zid) = some z)
    (hzp : z.project_id = pid)
    (hvol : (db.users.find? (fun x => x.id = vid)).isSome) :
    ((∃ a ∈ db.assignments,
        a.zone_id = zid ∧ a.volunteer_id = vid ∧ a.status ≠ "completed") →
      create_assignment db pid zid vid u newId =
        .error (.badRequest "This volunteer is already assigned to this zone")) ∧
    ((∀ a ∈ db.assignments,
        a.zone_id = zid → a.volunteer_id = vid → a.status = "completed") →
      create_assignment db pid zid vid u newId =
        .ok { id := newId, zone_id := zid, volunteer_id := vid,
              status := "assigned", started_at := none,
              completed_at := none }) := by
  obtain ⟨uu, hu⟩ := Option.isSome_iff_exists.mp hvol
  constructor
  · rintro ⟨a, ha, h1, h2, h3⟩
    have hsome : (db.assignments.find? (fun x =>
        x.zone_id = zid && x.volunteer_id = vid &&
          x.status ≠ "completed")).isSome := by
      rw [List.find?_isSome]
      exact ⟨a, ha, by simp [h1, h2, h3]⟩
    cases hfind : db.assignments.find? (fun x =>
        x.zone_id = zid && x.volunteer_id = vid &&
          x.status ≠ "completed") with
    | none => rw [hfind] at hsome; simp at hsome
    | some b =>
      unfold create_assignment
      rw [hacc]
      dsimp only
      rw [hz]
      dsimp only
      rw [if_neg (by simp [hzp])]
      rw [hu]
      dsimp only
      rw [hfind]
  · intro hall
    have hnone : db.assignments.find? (fun x =>
        x.zone_id = zid && x.volunteer_id = vid &&
          x.status ≠ "completed") = none := by
      rw [List.find?_eq_none]
      intro x hx
      simp only [Bool.and_eq_true, decide_eq_true_eq, not_and, ne_eq,
        Bool.not_eq_true, decide_eq_false_iff_not, not_not]
      intro hzv
      exact hall x hx hzv.1 hzv.2
    unfold create_assignment
    rw [hacc]
    dsimp only
    rw [hz]
    dsimp only
    rw [if_neg (by simp [hzp])]
    rw [hu]
    dsimp only
    rw [hnone]

/-- Concrete database for the duplicate-guard witness: project 10 owned
by user 1, zone 20, and one already-completed assignment of zone 20 to
volunteer 2. -/
def dbAssign : Db :=
  { projects := [{ id := 10, owner_id := 1 }]
    collaborators := []
    users := [{ id := 1 }, { id := 2 }]
    zones := [{ id := 20, project_id := 10, geometry := 0 }]
    assignments := [{ id := 30, zone_id := 20, volunteer_id := 2,
                      status := "completed", started_at := some 5,
                      completed_at := some 6 }]
    completionAreas := [] }

/-- C6 witness: on `dbAssign`, where the only prior assignment for the
pair is completed, the owner can assign volunteer 2 to zone 20 again. -/
theorem C6_duplicate_assignment_guard_witness :
    create_assignment dbAssign 10 20 2 { id := 1 } 31 =
      .ok { id := 31, zone_id := 20, volunteer_id := 2,
            status := "assigned", started_at := none,
            completed_at := none } :=
  (C6_duplicate_assignment_guard dbAssign 10 20 2 { id := 1 } 31
      { id := 10, owner_id := 1 } { id := 20, project_id := 10, geometry := 0 }
      rfl rfl rfl (by decide)).2
    (by intro a ha h1 h2; simp [dbAssign] at ha; simp [ha])

/-- Characterization of the placemark loop of `parse_kml`: the zones
are the successfully parsed candidates in order, and the errors are one
message per failing placemark, in order. -/
theorem parse_kml_foldl_eq (f : String → Option ℚ)
    (pms : List KmlPlacemark) (acc : List ZoneData × List String) :
    pms.foldl (parse_kml_step f) acc =
      (acc.1 ++ pms.filterMap (parse_placemark f),
       acc.2 ++ (pms.filter (fun pm => (parse_placemark f pm).isNone)).map
         (fun pm => "Failed to parse placemark: " ++
           placemark_display_name pm)) := by
  induction pms generalizing acc with
  | nil => simp
  | cons pm rest ih =>
    cases hp : parse_placemark f pm with
    | none =>
      simp [List.foldl_cons, parse_kml_step, hp, ih]
    | some zd =>
      simp [List.foldl_cons, parse_kml_step, hp, ih]

/-- Placemark with no name element but a perfectly good ring. -/
def pmNoName : KmlPlacemark :=
  { name := none, description := none, styleColor := none,
    styleUrl := none, polygon := some (some ["0,0", "0,1", "1,0"]) }

/-- Degenerate float oracle (never parses); irrelevant for a nameless
placemark, whose name check precedes geometry extraction. -/
def parseFloatNone : String → Option ℚ := fun _ => none

/-- C7 counterexample: a document whose single placemark has no name.
The parser emits no candidate for it — but it does append the error
message naming it `Unknown`, so the claim that a nameless placemark is
dropped with no error is false. -/
theorem C7_counterexample_nameless_yields_error :
    parse_kml parseFloatNone (some [pmNoName]) =
      ([], ["Failed to parse placemark: Unknown"]) ∧
    (parse_kml parseFloatNone (some [pmNoName])).2 ≠ [] := by
  exact ⟨by decide, by decide⟩

/-- C7 (amended): a placemark with no (effective) name yields no
candidate, and the parse of any document containing it reports the
error "Failed to parse placemark: ..." naming it (`Unknown` when the
name element is absent) — the drop is with an error, not silent. -/
theorem C7_nameless_dropped_with_error (f : String → Option ℚ)
    (pms : List KmlPlacemark) (pm : KmlPlacemark)
    (hname : placemark_effective_name pm = none) (hmem : pm ∈ pms) :
    parse_placemark f pm = none ∧
    ("Failed to parse placemark: " ++ placemark_display_name pm) ∈
      (parse_kml f (some pms)).2 := by
  have hpp : parse_placemark f pm = none := by
    unfold parse_placemark
    rw [hname]
  refine ⟨hpp, ?_⟩
  have hne : pms ≠ [] := List.ne_nil_of_mem hmem
  unfold parse_kml
  dsimp only
  rw [if_neg (by simpa using hne)]
  rw [parse_kml_foldl_eq]
  simp only [List.nil_append]
  have hmsg : ("Failed to parse placemark: " ++ placemark_display_name pm) ∈
      ((pms.filter (fun q => (parse_placemark f q).isNone)).map
        (fun q => "Failed to parse placemark: " ++
          placemark_display_name q)) :=
    List.mem_map_of_mem _ (List.mem_filter.mpr ⟨hmem, by simp [hpp]⟩)
  have herrs : (pms.filter (fun q => (parse_placemark f q).isNone)).map
      (fun q => "Failed to parse placemark: " ++
        placemark_display_name q) ≠ [] :=
    List.ne_nil_of_mem hmsg
  rw [if_neg (by simpa using fun _ => herrs)]
  exact hmsg

/-- C7 amended witness: the nameless placemark of the counterexample,
inside a one-element document. -/
theorem C7_nameless_dropped_with_error_witness :
    parse_placemark parseFloatNone pmNoName = none ∧
    ("Failed to parse placemark: " ++ placemark_display_name pmNoName) ∈
      (parse_kml parseFloatNone (some [pmNoName])).2 :=
  C7_nameless_dropped_with_error parseFloatNone [pmNoName] pmNoName
    (by decide) (by simp)

/-- Tiny float oracle parsing the digits used in the ring fixtures. -/
def parseFloatSmall : String → Option ℚ := fun s =>
  if s = "0" then some 0 else if s = "1" then some 1 else none

/-- Placemark whose ring text repeats a single vertex three times. -/
def pmDegenerateRing : KmlPlacemark :=
  { name := some (some "Zone A"), description := none, styleColor := none,
    styleUrl := none, polygon := some (some ["0,0", "0,0", "0,0"]) }

/-- C8 counterexample: a ring of three identical vertices — one
distinct vertex, fewer than the 3 distinct vertices the claim says are
required — is accepted by `_extract_polygon`, because the code counts
parsed vertices with multiplicity (`len(coordinates) < 3`), not
distinct ones. -/
theorem C8_counterexample_three_equal_vertices_accepted :
    parse_coordinates parseFloatSmall ["0,0", "0,0", "0,0"] =
      [(0, 0), (0, 0), (0, 0)] ∧
    (parse_coordinates parseFloatSmall
      ["0,0", "0,0", "0,0"]).dedup.length = 1 ∧
    extract_polygon parseFloatSmall pmDegenerateRing =
      some { outer := [(0, 0), (0, 0), (0, 0)] } := by
  exact ⟨by decide, by decide, by decide⟩

/-- C8 (amended): ring extraction rejects every ring with fewer than 3
parsed vertices counted with multiplicity (not: distinct vertices), and
accepts every ring with at least 3 parsed vertices, auto-closing it by
appending the first vertex whenever the first and last differ. -/
theorem C8_ring_extraction_amended (f : String → Option ℚ)
    (tokens : List String) (pm : KmlPlacemark)
    (hpoly : pm.polygon = some (some tokens)) :
    ((parse_coordinates f tokens).length < 3 →
      extract_polygon f pm = none) ∧
    (∀ c0, 3 ≤ (parse_coordinates f tokens).length →
      (parse_coordinates f tokens).head? = some c0 →
      (parse_coordinates f tokens).getLast? ≠ some c0 →
      extract_polygon f pm =
        some { outer := parse_coordinates f tokens ++ [c0] }) := by
  unfold extract_polygon
  rw [hpoly]
  dsimp only
  constructor
  · intro hlen
    simp only [if_pos hlen]
  · intro c0 hlen hhead hlast
    rw [if_neg (not_lt.mpr hlen), hhead]
    simp only [if_pos hlast]

/-- Placemark with an unclosed triangular ring. -/
def pmOpenRing : KmlPlacemark :=
  { name := some (some "Zone B"), description := none, styleColor := none,
    styleUrl := none, polygon := some (some ["0,0", "0,1", "1,0"]) }

/-- C8 amended witness: the unclosed triangle is accepted and closed by
appending its first vertex. -/
theorem C8_ring_extraction_amended_witness :
    extract_polygon parseFloatSmall pmOpenRing =
      some { outer := [(0, 0), (0, 1), (1, 0), (0, 0)] } := by
  have h := (C8_ring_extraction_amended parseFloatSmall
    ["0,0", "0,1", "1,0"] pmOpenRing rfl).2 ((0 : ℚ), (0 : ℚ))
    (by decide) (by decide) (by decide)
  rw [h]
  decide

/-- A parsed candidate named `A` used in the import fixtures. -/
def zdA : ZoneData :=
  { name := "A", description := none,
    geometry := { outer := [(0, 0), (0, 1), (1, 0), (0, 0)] },
    color := none,
    kml_metadata := { source := "kml_import", original_description := none } }

/-- C9 counterexample: one candidate parsed (named `A`), one parse
error, and a skip list that removes the candidate (case-insensitively).
The claim says removing every parsed candidate is a successful no-op,
but the code fails the batch with HTTP 400 because the error list is
non-empty. -/
theorem C9_counterexample_skip_all_with_errors_fails :
    ((["a"].map (fun s => pyLower s)).contains (pyLower zdA.name)) = true ∧
    import_kml_core [zdA] ["e1"] ["a"] =
      .error (.badRequest "Failed to import zones. Errors: e1") := by
  have hfil : List.filter (fun zd =>
      !(List.map (fun s => pyLower s) ["a"]).contains (pyLower zd.name))
      [zdA] = [] := by decide
  constructor
  · decide
  · unfold import_kml_core
    rw [if_neg (by simp)]
    dsimp only
    rw [if_neg (by rw [hfil]; simp), if_pos (by simp)]
    rfl

/-- C9 (amended): the skip list filters parsed candidates by lowercased
name before persistence; when nothing parsed and errors exist, the
batch fails up front with no zone persisted; when candidates parsed
but the skip list removes them all, the import succeeds as a no-op only
if there are no parse errors — with parse errors present it fails with
HTTP 400. -/
theorem C9_import_skip_list_amended (zones_data : List ZoneData)
    (errors : List String) (zones_to_skip : List String) :
    (zones_data = [] → errors ≠ [] →
      import_kml_core zones_data errors zones_to_skip =
        .error (.badRequest ("Failed to parse KML: " ++
          String.intercalate "; " errors))) ∧
    (∀ r, import_kml_core zones_data errors zones_to_skip = .ok r →
      r.zones = zones_data.filter (fun zd =>
        !((zones_to_skip.map (fun s => pyLower s)).contains
          (pyLower zd.name)))) ∧
    (zones_data.filter (fun zd =>
        !((zones_to_skip.map (fun s => pyLower s)).contains
          (pyLower zd.name))) = [] →
      ¬(zones_data = [] ∧ errors ≠ []) →
      (errors = [] →
        import_kml_core zones_data errors zones_to_skip =
          .ok { zones_created := 0, zones := [], errors := [] }) ∧
      (errors ≠ [] →
        import_kml_core zones_data errors zones_to_skip =
          .error (.badRequest ("Failed to import zones. Errors: " ++
            String.intercalate "; " errors)))) := by
  refine ⟨?_, ?_, ?_⟩
  · intro hz he
    unfold import_kml_core
    rw [if_pos (by simp [hz, he])]
  · intro r hr
    unfold import_kml_core at hr
    by_cases h1 : zones_data.isEmpty && !errors.isEmpty
    · rw [if_pos h1] at hr
      exact absurd hr (by simp)
    · rw [if_neg h1] at hr
      dsimp only at hr
      by_cases h2 : (zones_data.filter (fun zd =>
          !((zones_to_skip.map (fun s => pyLower s)).contains
            (pyLower zd.name)))).isEmpty
      · rw [if_neg (by simpa using h2)] at hr
        by_cases h3 : errors.isEmpty
        · rw [if_neg (by simpa using h3)] at hr
          injection hr with hr
          subst hr
          simpa using List.isEmpty_iff.mp h2
        · rw [if_pos (by simpa using h3)] at hr
          exact absurd hr (by simp)
      · rw [if_pos (by simpa using h2)] at hr
        injection hr with hr
        subst hr
        rfl
  · intro hfilter hne
    have hEmpty : (zones_data.filter (fun zd =>
        !((zones_to_skip.map (fun s => pyLower s)).contains
          (pyLower zd.name)))).isEmpty = true := by
      rw [hfilter]
      rfl
    constructor
    · intro he
      subst he
      unfold import_kml_core
      rw [if_neg (by simp)]
      dsimp only
      rw [if_neg (by rw [hEmpty]; simp), if_neg (by simp)]
    · intro he
      have hz : zones_data ≠ [] := by
        intro hzz
        exact hne ⟨hzz, he⟩
      unfold import_kml_core
      rw [if_neg (by simp [hz])]
      dsimp only
      rw [if_neg (by rw [hEmpty]; simp), if_pos (by simpa using he)]

/-- C9 amended witness: the single candidate `A` skipped via `a`, with
no parse errors: a successful no-op import. -/
theorem C9_import_skip_list_amended_witness :
    import_kml_core [zdA] [] ["a"] =
      .ok { zones_created := 0, zones := [], errors := [] } := by
  have hfil : List.filter (fun zd =>
      !(List.map (fun s => pyLower s) ["a"]).contains (pyLower zd.name))
      [zdA] = [] := by decide
  exact ((C9_import_skip_list_amended [zdA] [] ["a"]).2.2 hfil
    (by simp)).1 rfl

/-- C10: the zone mutation endpoints — single-zone delete, delete-all,
and KML import — gate on project membership only: the owner or any
collaborator row (role never read, so a viewer passes) gets through,
and a user with no membership is rejected with Forbidden on each
endpoint. -/
theorem C10_zone_mutations_membership_only (db : Db) (pid : Nat)
    (u : User) (project : Project)
    (hp : db.projects.find? (fun p => p.id = pid) = some project) :
    ((project.owner_id = u.id ∨
        ∃ c ∈ db.collaborators, c.project_id = pid ∧ c.user_id = u.id) →
      zones_check_project_access db pid u = .ok project ∧
      delete_all_zones db pid u =
        .ok (db.zones.filter (fun z => z.project_id = pid)).length ∧
      (∀ zid z, db.zones.find? (fun x => x.id = zid) = some z →
        z.project_id = pid →
        delete_zone db zid u = .ok "Zone deleted successfully") ∧
      (∀ f doc skip, import_kml f db pid u doc skip =
        import_kml_core (parse_kml f doc).1 (parse_kml f doc).2 skip)) ∧
    ((project.owner_id ≠ u.id ∧
        ∀ c ∈ db.collaborators, ¬(c.project_id = pid ∧ c.user_id = u.id)) →
      zones_check_project_access db pid u =
        .error (.forbidden "You do not have access to this project") ∧
      delete_all_zones db pid u =
        .error (.forbidden "You do not have access to this project") ∧
      (∀ f doc skip, import_kml f db pid u doc skip =
        .error (.forbidden "You do not have access to this project"))) := by
  have hmem : (project.owner_id = u.id ∨
      ∃ c ∈ db.collaborators, c.project_id = pid ∧ c.user_id = u.id) →
      zones_check_project_access db pid u = .ok project := by
    intro h
    have hcond : (decide (project.owner_id = u.id) ||
        db.collaborators.any (fun c =>
          decide (c.project_id = pid) && decide (c.user_id = u.id))) =
        true := by
      rcases h with h | ⟨c, hc, h1, h2⟩
      · simp [h]
      · simp only [Bool.or_eq_true, List.any_eq_true, Bool.and_eq_true,
          decide_eq_true_eq]
        exact Or.inr ⟨c, hc, h1, h2⟩
    unfold zones_check_project_access
    rw [hp]
    dsimp only
    rw [if_neg (by rw [hcond]; simp)]
  have hnomem : (project.owner_id ≠ u.id ∧
      ∀ c ∈ db.collaborators, ¬(c.project_id = pid ∧ c.user_id = u.id)) →
      zones_check_project_access db pid u =
        .error (.forbidden "You do not have access to this project") := by
    rintro ⟨h1, h2⟩
    have hcond : (decide (project.owner_id = u.id) ||
        db.collaborators.any (fun c =>
          decide (c.project_id = pid) && decide (c.user_id = u.id))) =
        false := by
      simp only [Bool.or_eq_false_iff, decide_eq_false_iff_not,
        List.any_eq_false, Bool.and_eq_true, decide_eq_true_eq, not_and]
      exact ⟨h1, fun c hc hcp hcu => h2 c hc ⟨hcp, hcu⟩⟩
    unfold zones_check_project_access
    rw [hp]
    dsimp only
    rw [if_pos (by rw [hcond]; simp)]
  constructor
  · intro h
    have hok := hmem h
    refine ⟨hok, ?_, ?_, ?_⟩
    · unfold delete_all_zones
      rw [hok]
    · intro zid z hz hzp
      unfold delete_zone
      rw [hz]
      dsimp only
      rw [hzp, hok]
    · intro f doc skip
      unfold import_kml
      rw [hok]
  · intro h
    have herr := hnomem h
    refine ⟨herr, ?_, ?_⟩
    · unfold delete_all_zones
      rw [herr]
    · intro f doc skip
      unfold import_kml
      rw [herr]

/-- C10 witness: on `dbAccess`, the viewer collaborator (user 3) is
allowed to delete all zones of project 10. -/
theorem C10_zone_mutations_membership_only_witness :
    delete_all_zones dbAccess 10 { id := 3 } = .ok 0 := by
  have h := ((C10_zone_mutations_membership_only dbAccess 10 { id := 3 }
    { id := 10, owner_id := 1 } rfl).1
    (Or.inr ⟨{ project_id := 10, user_id := 3,
               role := CollaboratorRole.project_viewer },
      by simp [dbAccess], rfl, rfl⟩)).2.1
  simpa using h

end ScoutingFlyers
